import Mathlib

/-!
Shallow embedding of the time-server's routing, JSON model-binding and error
propagation core (`server.py`), together with proofs about the embedded code.

Conventions used throughout:
* Python's `json.loads` output is modelled by `JValue` (strings, objects,
  arrays, numbers, booleans, null).  Objects are association lists in
  insertion order, mirroring Python's order-preserving dicts.
* A Python computation that can raise is modelled by `Res α`:
  `Res.ok` for normal return, `Res.appError` for a raised `ApplicationError`
  (whose user-facing message is carried verbatim; every raise site in the
  source uses the default status 400), and `Res.pyError` for any other raised
  exception, carrying the exception's type name (`AttributeError`,
  `TypeError`, ...); the message text of such unexpected exceptions is elided.
* Machine clock and the IANA timezone database are the external collaborators
  the spec excludes; they are modelled as explicit parameters / pure tables.
-/

namespace TimeServer

/-- A parsed JSON value, as produced by `json.loads`. -/
inductive JValue where
  | jstr (s : String)
  | jobj (fields : List (String × JValue))
  | jarr (elems : List JValue)
  | jnum (n : Int)
  | jbool (b : Bool)
  | jnull

/-- The types that can appear as a declared field annotation in this code
base: the three `ApplicationModel` subclasses, plain `str`, and the union
`str | None`. -/
inductive MType where
  | timezoneModel
  | dateModel
  | datesDiffModel
  | pyStr
  | optStr
deriving DecidableEq, Repr

/-- `cls.__annotations__` for each type that can appear as a binding target:
the declared fields of the model classes, in declaration order.  `str` and
`str | None` have no `__annotations__` (accessing the attribute raises
`AttributeError`), encoded as `none`. -/
def annotations : MType → Option (List (String × MType))
  | .timezoneModel => some [("tz", .optStr)]
  | .dateModel => some [("date", .pyStr), ("tz", .optStr)]
  | .datesDiffModel => some [("start", .dateModel), ("end", .dateModel)]
  | .pyStr => none
  | .optStr => none

/-- The check `get_origin(T) is UnionType and NoneType in get_args(T)` from
`model_from_json`'s completeness pass: among the annotation types of this
code base it holds exactly for `str | None`. -/
def isOptionalType : MType → Bool
  | .optStr => true
  | _ => false

/-- A bound attribute value on a model instance: a string, `None`, or a
nested bound model. -/
inductive MValue where
  | vStr (s : String)
  | vNone
  | vModel (cls : MType) (attrs : List (String × MValue))

/-- Outcome of a Python computation: normal return, raised
`ApplicationError` (message kept verbatim, status 400 everywhere in this
code base), or any other raised exception (tagged by its type name). -/
inductive Res (α : Type) where
  | ok (a : α)
  | appError (msg : String)
  | pyError (exnName : String)
deriving DecidableEq

/-- `setattr(model, key, v)`: overwrite an existing attribute in place,
otherwise append. -/
def setAttr : List (String × MValue) → String → MValue → List (String × MValue)
  | [], k, v => [(k, v)]
  | (k', v') :: rest, k, v =>
      if k' = k then (k, v) :: rest else (k', v') :: setAttr rest k v

/-- `hasattr(model, key) and getattr(model, key) is not None`. -/
def hasNonNone (attrs : List (String × MValue)) (k : String) : Bool :=
  match attrs.lookup k with
  | some .vNone => false
  | some _ => true
  | none => false

/-- The second (completeness) loop of `model_from_json`: every declared
field not already set to a non-`None` value is defaulted to `None` when its
declared type is optional, otherwise a "missing required param" error is
raised. -/
def fillDefaults : List (String × MType) → List (String × MValue) →
    Res (List (String × MValue))
  | [], acc => .ok acc
  | (key, ty) :: rest, acc =>
      if hasNonNone acc key then fillDefaults rest acc
      else if isOptionalType ty then fillDefaults rest (setAttr acc key .vNone)
      else .appError ("missing required param: " ++ key)

/-- Sequencing of Python computations: an exception propagates, a normal
value flows on. -/
def Res.bind {α β : Type} (x : Res α) (f : α → Res β) : Res β :=
  match x with
  | .ok a => f a
  | .appError m => .appError m
  | .pyError m => .pyError m

instance : Monad Res where
  pure := Res.ok
  bind := Res.bind

mutual

/-- `model_from_json(cls, json)` (`server.py` lines 150-176).

`cls.__new__(cls)` raises `TypeError` when `cls` is the union `str | None`
(one cannot instantiate `types.UnionType`).  `json.items()` raises
`AttributeError` when the value is not a mapping (string, list, number,
boolean or `None`).  For `cls = str` the instance/class has no
`__annotations__`, so both the per-key loop (on a nonempty mapping) and the
completeness loop (on an empty one) raise `AttributeError`. -/
def model_from_json (cls : MType) (j : JValue) : Res MValue :=
  if cls = .optStr then .pyError "TypeError"
  else
    match j with
    | .jobj fields =>
        match annotations cls with
        | none => .pyError "AttributeError"
        | some anns =>
            match bindItems anns fields [] with
            | .ok acc =>
                match fillDefaults anns acc with
                | .ok final => .ok (.vModel cls final)
                | .appError m => .appError m
                | .pyError m => .pyError m
            | .appError m => .appError m
            | .pyError m => .pyError m
    | _ => .pyError "AttributeError"
termination_by sizeOf j
decreasing_by all_goals simp_wf

/-- The first loop of `model_from_json`: `for key, value in json.items()`.
Unknown keys are rejected; string values are assigned; mapping values are
bound recursively against the field's declared type; lists are rejected;
any other value type is rejected. -/
def bindItems (anns : List (String × MType)) :
    List (String × JValue) → List (String × MValue) →
    Res (List (String × MValue))
  | [], acc => .ok acc
  | (key, value) :: rest, acc =>
      match anns.lookup key with
      | none => .appError ("unexpected param provided: " ++ key)
      | some attrType =>
          match value with
          | .jstr s => bindItems anns rest (setAttr acc key (.vStr s))
          | .jobj fields' =>
              match model_from_json attrType (.jobj fields') with
              | .ok v => bindItems anns rest (setAttr acc key v)
              | .appError m => .appError m
              | .pyError m => .pyError m
          | .jarr _ => .appError ("list in json is not supported: " ++ key)
          | _ => .appError ("unexpected type of json param: " ++ key)
termination_by items _acc => sizeOf items
decreasing_by all_goals (simp_wf <;> omega)

end

/-! ## Timezone and date collaborators

The spec treats the IANA timezone database (`zoneinfo`) and wall-clock
retrieval as external collaborators: pure functions from a zone name to an
offset-aware clock (or failure).  They are modelled here by an offset table
for the zones this repository's tests exercise (all fixed-offset on the
relevant dates: neither Moscow nor Novosibirsk has observed DST since 2014)
and by an explicit `now` parameter carrying the current UTC instant in
seconds since the Unix epoch. -/

/-- `zoneinfo.ZoneInfo(name)` as a pure offset lookup, in minutes east of
UTC; `none` models `ZoneInfoNotFoundError` for an unknown name. -/
def tzOffsetMinutes : String → Option Int
  | "UTC" => some 0
  | "Europe/Moscow" => some 180
  | "Asia/Novosibirsk" => some 420
  | _ => none

/-- `TimezoneModel.get_parsed_tz` (`server.py` lines 184-191): `None`
resolves to UTC, a known name to its zone, an unknown name raises the
structured error `invalid timezone`.  The result is the zone's UTC offset
in minutes. -/
def get_parsed_tz (tz : Option String) : Res Int :=
  match tz with
  | none => .ok 0
  | some name =>
      match tzOffsetMinutes name with
      | some off => .ok off
      | none => .appError "invalid timezone"

/-- Days since 1970-01-01 of the proleptic-Gregorian civil date `y-mo-d`
(`y ≥ 1`, `1 ≤ mo ≤ 12`, `1 ≤ d ≤ 31`), by the standard era-free formula. -/
def daysFromCivil (y mo d : Nat) : Int :=
  let yAdj : Nat := if mo ≤ 2 then y - 1 else y
  let moAdj : Nat := if mo ≤ 2 then mo + 9 else mo - 3
  (365 * yAdj + yAdj / 4 - yAdj / 100 + yAdj / 400
    + (153 * moAdj + 2) / 5 + (d - 1) : Nat) - (719468 : Int)

/-- Inverse of `daysFromCivil`: the civil date of a day number. -/
def civilFromDays (z : Int) : Int × Nat × Nat :=
  let zShift := z + 719468
  let era := zShift / 146097
  let doe := (zShift - era * 146097).toNat
  let yoe := (doe - doe / 1460 + doe / 36524 - doe / 146096) / 365
  let doy := doe - (365 * yoe + yoe / 4 - yoe / 100)
  let mp := (5 * doy + 2) / 153
  let d := doy - (153 * mp + 2) / 5 + 1
  let m := if mp < 10 then mp + 3 else mp - 9
  (era * 400 + yoe + (if m ≤ 2 then 1 else 0), m, d)

def isLeapYear (y : Nat) : Bool :=
  (y % 4 == 0 && y % 100 != 0) || y % 400 == 0

def daysInMonth (y mo : Nat) : Nat :=
  if mo = 2 then (if isLeapYear y then 29 else 28)
  else if mo = 4 ∨ mo = 6 ∨ mo = 9 ∨ mo = 11 then 30
  else 31

/-! ## `datetime.strptime` for the two supported formats

`DateModel.get_parsed_date` tries `"%I:%M%p %Y-%m-%d"` then
`"%m.%d.%Y %H:%M:%S"`.  CPython's `_strptime` compiles each directive to a
regex alternation over one- or two-digit numerals (`%Y`: exactly four
digits; `%p`: `AM|PM` case-insensitively) and then validates the result by
constructing a `datetime`, which checks the day against the month length
and rejects leap seconds.  Both stages are reproduced below; a failure of
either stage is a `ValueError`, i.e. `none`. -/

def digitVal (c : Char) : Nat := c.toNat - 48

/-- One numeric directive.  Two digits are consumed when they form a value
in `[minTwo, maxTwo]` (the two-digit regex alternatives); otherwise a
single digit with value at least `minOne` is consumed (the one-digit
alternative).  The directives below are always followed by a non-digit, so
no further backtracking arises. -/
def parseNum2 (minTwo maxTwo minOne : Nat) :
    List Char → Option (Nat × List Char)
  | [] => none
  | c1 :: rest =>
      if c1.isDigit then
        match rest with
        | c2 :: rest2 =>
            if c2.isDigit then
              let v := digitVal c1 * 10 + digitVal c2
              if minTwo ≤ v ∧ v ≤ maxTwo then some (v, rest2)
              else if minOne ≤ digitVal c1 then some (digitVal c1, rest)
              else none
            else if minOne ≤ digitVal c1 then some (digitVal c1, rest)
            else none
        | [] =>
            if minOne ≤ digitVal c1 then some (digitVal c1, [])
            else none
      else none

/-- `%Y`: exactly four digits. -/
def parseYear4 : List Char → Option (Nat × List Char)
  | c1 :: c2 :: c3 :: c4 :: rest =>
      if c1.isDigit && c2.isDigit && c3.isDigit && c4.isDigit then
        some (digitVal c1 * 1000 + digitVal c2 * 100 + digitVal c3 * 10
          + digitVal c4, rest)
      else none
  | _ => none

/-- `%p`: `AM` or `PM`, case-insensitive; `true` means PM. -/
def parseAmPm : List Char → Option (Bool × List Char)
  | c1 :: c2 :: rest =>
      if (c1 == 'a' || c1 == 'A') && (c2 == 'm' || c2 == 'M') then
        some (false, rest)
      else if (c1 == 'p' || c1 == 'P') && (c2 == 'm' || c2 == 'M') then
        some (true, rest)
      else none
  | _ => none

def parseLit (lit : Char) : List Char → Option (List Char)
  | c :: rest => if c == lit then some rest else none
  | [] => none

/-- Seconds since midnight of naive wall time `(h, mi, s)` on civil day
`(y, mo, d)`, as seconds since the epoch; `none` when `datetime(...)`
would reject the components. -/
def mkNaive (y mo d h mi s : Nat) : Option Int :=
  if 1 ≤ y ∧ d ≤ daysInMonth y mo ∧ s ≤ 59 then
    some (daysFromCivil y mo d * 86400 + (h * 3600 + mi * 60 + s : Nat))
  else none

/-- `datetime.strptime(s, "%I:%M%p %Y-%m-%d")` as naive epoch seconds. -/
def parseFormatA (s : String) : Option Int := do
  let (h12, r1) ← parseNum2 1 12 1 s.data
  let r2 ← parseLit ':' r1
  let (mi, r3) ← parseNum2 0 59 0 r2
  let (pm, r4) ← parseAmPm r3
  let r5 ← parseLit ' ' r4
  let (y, r6) ← parseYear4 r5
  let r7 ← parseLit '-' r6
  let (mo, r8) ← parseNum2 1 12 1 r7
  let r9 ← parseLit '-' r8
  let (d, r10) ← parseNum2 1 31 1 r9
  if r10 = [] then
    let h := if pm then (if h12 = 12 then 12 else h12 + 12)
             else (if h12 = 12 then 0 else h12)
    mkNaive y mo d h mi 0
  else none

/-- `datetime.strptime(s, "%m.%d.%Y %H:%M:%S")` as naive epoch seconds.
The `%S` regex admits 60 and 61, which `datetime` then rejects; `mkNaive`
applies that check. -/
def parseFormatB (s : String) : Option Int := do
  let (mo, r1) ← parseNum2 1 12 1 s.data
  let r2 ← parseLit '.' r1
  let (d, r3) ← parseNum2 1 31 1 r2
  let r4 ← parseLit '.' r3
  let (y, r5) ← parseYear4 r4
  let r6 ← parseLit ' ' r5
  let (h, r7) ← parseNum2 0 23 0 r6
  let r8 ← parseLit ':' r7
  let (mi, r9) ← parseNum2 0 59 0 r8
  let r10 ← parseLit ':' r9
  let (sec, r11) ← parseNum2 0 61 0 r10
  if r11 = [] then mkNaive y mo d h mi sec else none

/-- The format loop of `DateModel.get_parsed_date`: first successful
format wins. -/
def strptimeFormats (s : String) : Option Int :=
  match parseFormatA s with
  | some dt => some dt
  | none => parseFormatB s

/-- `DateModel.get_parsed_date` (`server.py` lines 213-230): parse the
naive wall time, then attach the resolved timezone via
`dt.replace(tzinfo=...)` (keeping the wall time).  Result: naive wall
seconds paired with the zone's offset in minutes. -/
def get_parsed_date (date : String) (tz : Option String) : Res (Int × Int) :=
  match strptimeFormats date with
  | none => .appError ("invalid datetime format: " ++ date)
  | some wall => do
      let off ← get_parsed_tz tz
      pure (wall, off)

/-- `DateModel.get_date_in_utc`: `astimezone(timezone.utc)` converts the
aware wall time to the UTC instant. -/
def get_date_in_utc (date : String) (tz : Option String) : Res Int := do
  let (wall, off) ← get_parsed_date date tz
  pure (wall - off * 60)

def pad2 (n : Nat) : String :=
  if n < 10 then "0" ++ toString n else toString n

/-- `str(timedelta(seconds=t))`: `timedelta` normalises to days plus a
non-negative remainder, prints `H:MM:SS` (hours unpadded) and prefixes a
signed day count, pluralised, when nonzero. -/
def pyTimedeltaStr (t : Int) : String :=
  let days := t / 86400
  let rem := (t % 86400).toNat
  let hms := toString (rem / 3600) ++ ":" ++ pad2 (rem % 3600 / 60) ++ ":"
    ++ pad2 (rem % 60)
  if days = 0 then hms
  else toString days ++ " day" ++ (if days = 1 ∨ days = -1 then "" else "s")
    ++ ", " ++ hms

/-- The `tz` attribute of a bound model, as `TimezoneModel` methods read
it: a bound string or `None`.  (After a successful bind these are the only
shapes a `tz` attribute can take.) -/
def boundTz : MValue → Option String
  | .vModel _ attrs =>
      match attrs.lookup "tz" with
      | some (.vStr s) => some s
      | _ => none
  | _ => none

/-- `self.start.get_date_in_utc()` applied to a bound attribute value:
anything but a bound `DateModel` would raise `AttributeError`. -/
def dateInUtcOf (m : MValue) : Res Int :=
  match m with
  | .vModel .dateModel attrs =>
      match attrs.lookup "date", attrs.lookup "tz" with
      | some (.vStr d), some (.vStr t) => get_date_in_utc d (some t)
      | some (.vStr d), some .vNone => get_date_in_utc d none
      | _, _ => .pyError "AttributeError"
  | _ => .pyError "AttributeError"

/-- `DatesDiffModel.get_diff` (`server.py` lines 243-244): the signed
difference `start - end` in seconds — there is no absolute value. -/
def get_diff (m : MValue) : Res Int :=
  match m with
  | .vModel .datesDiffModel attrs =>
      match attrs.lookup "start", attrs.lookup "end" with
      | some s, some e => do
          let i1 ← dateInUtcOf s
          let i2 ← dateInUtcOf e
          pure (i1 - i2)
      | _, _ => .pyError "AttributeError"
  | _ => .pyError "AttributeError"

/-! ## Request/Response envelope, handlers and router -/

/-- The inbound request.  `rawParse` is the outcome of `json.loads` on the
UTF-8-decoded body bytes: `none` models a parse failure — which in
`Request.get_body` also covers an empty or absent body, since
`json.loads('')` raises.  `pathParams` is `none` until the dispatcher has
matched a route (reading a path parameter before that raises
`AttributeError`, as `__path_params` is unset). -/
structure RequestM where
  method : String
  path : String
  rawParse : Option JValue
  pathParams : Option (List (String × String))

/-- `Request.get_body` (`server.py` lines 22-34): a body that fails to
parse yields an empty mapping, and a parsed value equal to `''` is also
replaced by an empty mapping; anything else is returned unchanged. -/
def get_body (r : RequestM) : JValue :=
  match r.rawParse with
  | none => .jobj []
  | some v =>
      match v with
      | .jstr s => if s = "" then .jobj [] else .jstr s
      | other => other

/-- `Request.get_path_param` (`server.py` lines 42-46). -/
def get_path_param (r : RequestM) (key : String) : Res String :=
  match r.pathParams with
  | none => .pyError "AttributeError"
  | some ps =>
      match ps.lookup key with
      | none => .appError "required path param not provided"
      | some v => .ok v

structure Response where
  body : String
  code : Nat
  contentType : String
deriving DecidableEq, Repr

/-- `Response.json(body)`: `json.dumps` of a one-key mapping (the payload
strings this server emits need no JSON escaping). -/
def Response.jsonMsg (s : String) : Response :=
  ⟨"\x7b\"message\": \"" ++ s ++ "\"\x7d", 200, "application/json"⟩

/-- `Response.error(message, code)`. -/
def Response.error (msg : String) (code : Nat) : Response :=
  ⟨"\x7b\"reason\": \"" ++ msg ++ "\"\x7d", code, "application/json"⟩

/-- `Response.html(body)`: the fixed HTML skeleton. -/
def Response.html (b : String) : Response :=
  ⟨"\n<html>\n    <head><title>Time Server</title></head>\n    <body>\n        <div>"
    ++ b ++ "</div>\n    </body>\n</html>\n", 200, "text/html"⟩

/-- Local-time formatting `%Y-%m-%d %H:%M:%S` of a wall-time instant in
epoch seconds (`OUTPUT_DATETIME_FORMAT`). -/
def formatCivil (wall : Int) : String :=
  let days := wall / 86400
  let rem := (wall % 86400).toNat
  let c := civilFromDays days
  toString c.1 ++ "-" ++ pad2 c.2.1 ++ "-" ++ pad2 c.2.2 ++ " "
    ++ pad2 (rem / 3600) ++ ":" ++ pad2 (rem % 3600 / 60) ++ ":"
    ++ pad2 (rem % 60)

/-- `str(datetime.date())`: ISO `YYYY-MM-DD` of a wall-time instant. -/
def formatDateOnly (wall : Int) : String :=
  let days := wall / 86400
  let c := civilFromDays days
  toString c.1 ++ "-" ++ pad2 c.2.1 ++ "-" ++ pad2 c.2.2

/-- `TimezoneModel.get_datetime` for the current instant `now` (UTC epoch
seconds): resolve the zone and take the local wall time; any failure is
re-raised as the structured `invalid timezone` error.  The result is local
wall seconds. -/
def get_datetime (now : Int) (tz : Option String) : Res Int :=
  match get_parsed_tz tz with
  | .ok off => .ok (now + off * 60)
  | .appError _ => .appError "invalid timezone"
  | .pyError _ => .appError "invalid timezone"

/-- `TimezoneModel.get_str_datetime`. -/
def get_str_datetime (now : Int) (tz : Option String) : Res String := do
  let wall ← get_datetime now tz
  pure (formatCivil wall)

/-- `render_timezone_time` (`server.py` lines 246-250). -/
def render_timezone_time (now : Int) (req : RequestM) : Res Response := do
  let tzName ← get_path_param req "timezone"
  let s ← get_str_datetime now (some tzName)
  pure (Response.html s)

/-- `render_continent_city_time` (`server.py` lines 252-257). -/
def render_continent_city_time (now : Int) (req : RequestM) : Res Response := do
  let continent ← get_path_param req "continent"
  let city ← get_path_param req "city"
  let s ← get_str_datetime now (some (continent ++ "/" ++ city))
  pure (Response.html s)

/-- `render_continent_country_city_time` (`server.py` lines 259-265). -/
def render_continent_country_city_time (now : Int) (req : RequestM) :
    Res Response := do
  let continent ← get_path_param req "continent"
  let country ← get_path_param req "country"
  let city ← get_path_param req "city"
  let s ← get_str_datetime now
    (some (continent ++ "/" ++ country ++ "/" ++ city))
  pure (Response.html s)

/-- `render_server_time` (`server.py` lines 267-269). -/
def render_server_time (now : Int) (_req : RequestM) : Res Response :=
  .ok (Response.html (formatCivil now))

/-- `get_timezone_time` (`server.py` lines 271-274). -/
def get_timezone_time (now : Int) (req : RequestM) : Res Response := do
  let m ← model_from_json .timezoneModel (get_body req)
  let s ← get_str_datetime now (boundTz m)
  pure (Response.jsonMsg s)

/-- `get_timezone_date` (`server.py` lines 276-279). -/
def get_timezone_date (now : Int) (req : RequestM) : Res Response := do
  let m ← model_from_json .timezoneModel (get_body req)
  let wall ← get_datetime now (boundTz m)
  pure (Response.jsonMsg (formatDateOnly wall))

/-- `get_dates_diff` (`server.py` lines 281-284). -/
def get_dates_diff (req : RequestM) : Res Response := do
  let m ← model_from_json .datesDiffModel (get_body req)
  let d ← get_diff m
  pure (Response.jsonMsg (pyTimedeltaStr d))

/-- A registered route: method, compiled path pattern (modelled as the
matching function of the route's anchored regex, returning
`match.groupdict()` on success) and handler. -/
structure RouteM where
  method : String
  matcher : String → Option (List (String × String))
  handler : RequestM → Res Response

/-- What `Router.handle_request` does with control: either it returns a
`Response`, or it terminates by re-raising an unexpected exception to its
caller (the WSGI transport). -/
inductive DispatchResult where
  | returned (r : Response)
  | raised (exnName : String)
deriving DecidableEq, Repr

/-- The body of the route loop once a route has matched: bind
`match.groupdict()` as path parameters and call the handler wrapped in the
`try`/`except` of `server.py` lines 132-138.  A raised `ApplicationError`
becomes its 400 response.  On any other exception the code assigns
`response = Response('server error', 500)` and then executes `raise e`, so
that response object is discarded and the exception propagates: the
function does not return. -/
def runMatched (r : RouteM) (req : RequestM)
    (params : List (String × String)) : DispatchResult :=
  match r.handler { req with pathParams := some params } with
  | .ok resp => .returned resp
  | .appError m => .returned (Response.error m 400)
  | .pyError m => .raised m

/-- The route loop of `Router.handle_request` (`server.py` lines 118-141),
instrumented with the list of (positions of) routes whose handler was
invoked.  Skips routes whose method or pattern does not match; the first
match is dispatched; no match at all yields the fixed 404. -/
def handleRequestAux : List RouteM → Nat → RequestM →
    List Nat × DispatchResult
  | [], _, _ => ([], .returned ⟨"not found", 404, "application/json"⟩)
  | r :: rs, i, req =>
      if r.method = req.method then
        match r.matcher req.path with
        | some params => ([i], runMatched r req params)
        | none => handleRequestAux rs (i + 1) req
      else handleRequestAux rs (i + 1) req

/-- `Router.handle_request`'s result. -/
def handle_request (routes : List RouteM) (req : RequestM) : DispatchResult :=
  (handleRequestAux routes 0 req).2

/-- The positions (in registration order) of the routes whose handler the
dispatcher invoked for this request. -/
def invokedHandlers (routes : List RouteM) (req : RequestM) : List Nat :=
  (handleRequestAux routes 0 req).1

/-! ## The application's route table (`create_application`)

Each matcher embeds the route's anchored regex.  Paths delivered by the
transport contain no newline, so `$` is modelled as end-of-string.  A
segment class `[a-zA-Z_]` cannot match `/`, so anchored segment patterns
match exactly the strings obtained by splitting the path at every `/`. -/

def isPatChar (c : Char) : Bool := c.isAlpha || c == '_'

/-- Split at every `/` (each `/` separates two pieces). -/
def splitSlash : List Char → List (List Char)
  | [] => [[]]
  | '/' :: rest => [] :: splitSlash rest
  | c :: rest =>
      match splitSlash rest with
      | seg :: segs => (c :: seg) :: segs
      | [] => [[c]]

/-- `^/$`. -/
def matchRoot (p : String) : Option (List (String × String)) :=
  if p = "/" then some [] else none

/-- `^/(?P<continent>[a-zA-Z_]+)/(?P<country>[a-zA-Z_]+)/(?P<city>[a-zA-Z_]+)$`. -/
def matchSeg3 (p : String) : Option (List (String × String)) :=
  match splitSlash p.data with
  | [[], a, b, c] =>
      if a.all isPatChar && b.all isPatChar && c.all isPatChar
          && !a.isEmpty && !b.isEmpty && !c.isEmpty then
        some [("continent", ⟨a⟩), ("country", ⟨b⟩), ("city", ⟨c⟩)]
      else none
  | _ => none

/-- `^/(?P<continent>[a-zA-Z_]+)/(?P<city>[a-zA-Z_]+)$`. -/
def matchSeg2 (p : String) : Option (List (String × String)) :=
  match splitSlash p.data with
  | [[], a, b] =>
      if a.all isPatChar && b.all isPatChar && !a.isEmpty && !b.isEmpty then
        some [("continent", ⟨a⟩), ("city", ⟨b⟩)]
      else none
  | _ => none

/-- `^/(?P<timezone>[a-zA-Z_]{3,})$`. -/
def matchSeg1 (p : String) : Option (List (String × String)) :=
  match splitSlash p.data with
  | [[], a] =>
      if a.all isPatChar && decide (3 ≤ a.length) then
        some [("timezone", ⟨a⟩)]
      else none
  | _ => none

/-- A literal pattern such as `^/api/v1/time$`. -/
def matchLit (lit : String) (p : String) : Option (List (String × String)) :=
  if p = lit then some [] else none

/-- The route table of `create_application` (`server.py` lines 286-319),
in registration order; `now` is the wall-clock collaborator. -/
def appRoutes (now : Int) : List RouteM :=
  [ ⟨"GET", matchRoot, render_server_time now⟩,
    ⟨"GET", matchSeg3, render_continent_country_city_time now⟩,
    ⟨"GET", matchSeg2, render_continent_city_time now⟩,
    ⟨"GET", matchSeg1, render_timezone_time now⟩,
    ⟨"POST", matchLit "/api/v1/time", get_timezone_time now⟩,
    ⟨"POST", matchLit "/api/v1/date", get_timezone_date now⟩,
    ⟨"POST", matchLit "/api/v1/datediff", get_dates_diff⟩ ]

/-! ## Router lemmas -/

/-- A route matches a request when its method equals the request method and
its anchored pattern matches the full path. -/
def matchesRoute (r : RouteM) (req : RequestM) : Bool :=
  (r.method == req.method) && (r.matcher req.path).isSome

/-- The JSON object a client sends for one `DateModel`: a `date` string
and, optionally, a `tz` string. -/
def dateJson (d : String) (tz : Option String) : JValue :=
  .jobj ([("date", .jstr d)] ++
    match tz with
    | some t => [("tz", .jstr t)]
    | none => [])

lemma handleRequestAux_skip (r : RouteM) (rs : List RouteM) (n : Nat)
    (req : RequestM) (h : matchesRoute r req = false) :
    handleRequestAux (r :: rs) n req = handleRequestAux rs (n + 1) req := by
  by_cases hm : r.method = req.method
  · have hp : r.matcher req.path = none := by
      cases hmm : r.matcher req.path with
      | none => rfl
      | some ps => rw [matchesRoute, hmm] at h; simp [hm] at h
    simp [handleRequestAux, hm, hp]
  · simp [handleRequestAux, hm]

lemma handleRequestAux_hit (r : RouteM) (rs : List RouteM) (n : Nat)
    (req : RequestM) (params : List (String × String))
    (hm : r.method = req.method) (hp : r.matcher req.path = some params) :
    handleRequestAux (r :: rs) n req = ([n], runMatched r req params) := by
  simp [handleRequestAux, hm, hp]

lemma handleRequestAux_first (routes : List RouteM) (req : RequestM) :
    ∀ (n i : Nat) (h : i < routes.length),
    matchesRoute routes[i] req = true →
    (∀ r ∈ routes.take i, matchesRoute r req = false) →
    ∃ params, routes[i].matcher req.path = some params ∧
      handleRequestAux routes n req = ([n + i], runMatched routes[i] req params) := by
  induction routes with
  | nil => intro n i h; exact absurd h (by simp)
  | cons r rs ih =>
      intro n i h hmatch hbefore
      cases i with
      | zero =>
          simp only [List.getElem_cons_zero] at hmatch ⊢
          have hm : r.method = req.method := by
            have := (Bool.and_eq_true _ _).mp hmatch
            exact beq_iff_eq.mp this.1
          obtain ⟨params, hp⟩ : ∃ p, r.matcher req.path = some p := by
            have := (Bool.and_eq_true _ _).mp hmatch
            exact Option.isSome_iff_exists.mp this.2
          exact ⟨params, hp, by rw [handleRequestAux_hit r rs n req params hm hp]; simp⟩
      | succ j =>
          have hr : matchesRoute r req = false := by
            apply hbefore
            simp [List.take_succ_cons]
          have hlt : j < rs.length := by
            have hlen := h; simp only [List.length_cons] at hlen; omega
          have hmatch' : matchesRoute rs[j] req = true := by
            simpa using hmatch
          have hbefore' : ∀ x ∈ rs.take j, matchesRoute x req = false := by
            intro x hx
            exact hbefore x (by simp [List.take_succ_cons, hx])
          obtain ⟨params, hp, hrun⟩ := ih (n + 1) j hlt hmatch' hbefore'
          refine ⟨params, by simpa using hp, ?_⟩
          rw [handleRequestAux_skip r rs n req hr, hrun]
          simp only [List.getElem_cons_succ]
          have harith : n + 1 + j = n + (j + 1) := by omega
          rw [harith]

lemma handleRequestAux_nomatch (routes : List RouteM) (req : RequestM) :
    ∀ (n : Nat), (∀ r ∈ routes, matchesRoute r req = false) →
    handleRequestAux routes n req =
      ([], .returned ⟨"not found", 404, "application/json"⟩) := by
  induction routes with
  | nil => intro n _; rfl
  | cons r rs ih =>
      intro n hall
      rw [handleRequestAux_skip r rs n req (hall r (by simp))]
      exact ih (n + 1) (fun x hx => hall x (by simp [hx]))

/-- C5.  For every request whose method and path match at least one
registered route, the dispatcher invokes exactly one handler — the one of
the earliest-registered route whose method equals the request method and
whose anchored pattern matches the full path — and the response is that
handler invocation's outcome. -/
theorem c5_first_match_wins (routes : List RouteM) (req : RequestM) (i : Nat)
    (h : i < routes.length) (hmatch : matchesRoute routes[i] req = true)
    (hbefore : ∀ r ∈ routes.take i, matchesRoute r req = false) :
    invokedHandlers routes req = [i] ∧
    ∃ params, routes[i].matcher req.path = some params ∧
      handle_request routes req = runMatched routes[i] req params := by
  obtain ⟨params, hp, hrun⟩ := handleRequestAux_first routes req 0 i h hmatch hbefore
  refine ⟨?_, params, hp, ?_⟩
  · simp [invokedHandlers, hrun]
  · simp [handle_request, hrun]

/-- Witness for C5 on the application's route table: `GET /Europe/Moscow`
matches both two-segment routes and the bare-timezone pattern cannot apply;
the dispatcher invokes exactly the handler of route 2, the
continent/city route (registration order 0-based), and serves its
response. -/
theorem c5_first_match_wins_witness :
    invokedHandlers (appRoutes 0) ⟨"GET", "/Europe/Moscow", none, none⟩ = [2] ∧
    handle_request (appRoutes 0) ⟨"GET", "/Europe/Moscow", none, none⟩ =
      .returned (Response.html "1970-01-01 03:00:00") := by
  have h := c5_first_match_wins (appRoutes 0)
    ⟨"GET", "/Europe/Moscow", none, none⟩ 2 (by decide) (by decide) (by decide)
  obtain ⟨hinv, params, hps, hrun⟩ := h
  refine ⟨hinv, ?_⟩
  have hps' : params = [("continent", "Europe"), ("city", "Moscow")] := by
    have : some params = some [("continent", "Europe"), ("city", "Moscow")] := by
      rw [← hps]; rfl
    exact Option.some.inj this
  subst hps'
  rw [hrun]; rfl

/-- C6.  For every (method, path) pair that matches no registered route,
the dispatcher returns the fixed response with status 404 and body
`not found`, and no handler is invoked. -/
theorem c6_unmatched_404 (routes : List RouteM) (req : RequestM)
    (hall : ∀ r ∈ routes, matchesRoute r req = false) :
    handle_request routes req =
      .returned ⟨"not found", 404, "application/json"⟩ ∧
    invokedHandlers routes req = [] := by
  have h := handleRequestAux_nomatch routes req 0 hall
  exact ⟨by simp [handle_request, h], by simp [invokedHandlers, h]⟩

/-- Witness for C6: `GET /ab` (too short for the bare-timezone pattern,
too few segments for the others) matches nothing; the response is the
fixed 404 and no handler runs. -/
theorem c6_unmatched_404_witness :
    handle_request (appRoutes 0) ⟨"GET", "/ab", none, none⟩ =
      .returned ⟨"not found", 404, "application/json"⟩ ∧
    invokedHandlers (appRoutes 0) ⟨"GET", "/ab", none, none⟩ = [] :=
  c6_unmatched_404 (appRoutes 0) ⟨"GET", "/ab", none, none⟩ (by decide)

/-- C1.  On `POST /api/v1/time` with body `42` (valid JSON, not an
object), the matched handler raises `AttributeError` (not
`ApplicationError`), and `Router.handle_request` terminates by re-raising
that exception: its control flow never reaches a `return`, so the
`Response('server error', 500)` it constructs in the `except` arm is
discarded and no response is returned to the client by the dispatcher.
This refutes the claim that the fixed 500 response is delivered AND the
exception escalated — only the escalation happens. -/
theorem c1_unexpected_exception_only_raises :
    handle_request (appRoutes 0)
      ⟨"POST", "/api/v1/time", some (.jnum 42), none⟩ =
      .raised "AttributeError" := by
  have hstep : handle_request (appRoutes 0)
      ⟨"POST", "/api/v1/time", some (.jnum 42), none⟩ =
      runMatched ⟨"POST", matchLit "/api/v1/time", get_timezone_time 0⟩
        ⟨"POST", "/api/v1/time", some (.jnum 42), none⟩ [] := rfl
  rw [hstep]
  simp [runMatched, get_timezone_time, get_body, model_from_json, Bind.bind,
    Res.bind]

/-- C10.  A POST body that is valid JSON but not an object — a number, a
boolean or a non-empty string — is returned unchanged by
`Request.get_body`, makes `model_from_json` raise `AttributeError`
(`.items()` is missing) rather than the structured `ApplicationError`, and
therefore sends the request down the unexpected-failure path (the
dispatcher re-raises; no 400 validation response). -/
theorem c10_nonobject_body_unexpected_failure (now n : Int) (b : Bool)
    (s : String) (hs : s ≠ "") :
    (get_body ⟨"POST", "/api/v1/time", some (.jnum n), none⟩ = .jnum n
      ∧ get_body ⟨"POST", "/api/v1/time", some (.jbool b), none⟩ = .jbool b
      ∧ get_body ⟨"POST", "/api/v1/time", some (.jstr s), none⟩ = .jstr s)
    ∧ (model_from_json .timezoneModel (.jnum n) = .pyError "AttributeError"
      ∧ model_from_json .timezoneModel (.jbool b) = .pyError "AttributeError"
      ∧ model_from_json .timezoneModel (.jstr s) = .pyError "AttributeError"
      ∧ model_from_json .datesDiffModel (.jnum n) = .pyError "AttributeError")
    ∧ (handle_request (appRoutes now)
          ⟨"POST", "/api/v1/time", some (.jnum n), none⟩ =
          .raised "AttributeError"
      ∧ handle_request (appRoutes now)
          ⟨"POST", "/api/v1/date", some (.jbool b), none⟩ =
          .raised "AttributeError"
      ∧ handle_request (appRoutes now)
          ⟨"POST", "/api/v1/datediff", some (.jstr s), none⟩ =
          .raised "AttributeError") := by
  refine ⟨⟨rfl, rfl, by simp [get_body, hs]⟩, ?_, ?_, ?_, ?_⟩
  · refine ⟨?_, ?_, ?_, ?_⟩ <;> simp [model_from_json]
  · have hstep : handle_request (appRoutes now)
        ⟨"POST", "/api/v1/time", some (.jnum n), none⟩ =
        runMatched ⟨"POST", matchLit "/api/v1/time", get_timezone_time now⟩
          ⟨"POST", "/api/v1/time", some (.jnum n), none⟩ [] := rfl
    rw [hstep]
    simp [runMatched, get_timezone_time, get_body, model_from_json, Bind.bind,
      Res.bind]
  · have hstep : handle_request (appRoutes now)
        ⟨"POST", "/api/v1/date", some (.jbool b), none⟩ =
        runMatched ⟨"POST", matchLit "/api/v1/date", get_timezone_date now⟩
          ⟨"POST", "/api/v1/date", some (.jbool b), none⟩ [] := rfl
    rw [hstep]
    simp [runMatched, get_timezone_date, get_body, model_from_json, Bind.bind,
      Res.bind]
  · have hstep : handle_request (appRoutes now)
        ⟨"POST", "/api/v1/datediff", some (.jstr s), none⟩ =
        runMatched ⟨"POST", matchLit "/api/v1/datediff", get_dates_diff⟩
          ⟨"POST", "/api/v1/datediff", some (.jstr s), none⟩ [] := rfl
    rw [hstep]
    simp [runMatched, get_dates_diff, get_body, hs, model_from_json, Bind.bind,
      Res.bind]

/-- Witness for C10 at concrete inputs. -/
theorem c10_nonobject_body_unexpected_failure_witness :
    get_body ⟨"POST", "/api/v1/time", some (.jstr "x"), none⟩ = .jstr "x"
    ∧ handle_request (appRoutes 0)
        ⟨"POST", "/api/v1/datediff", some (.jstr "x"), none⟩ =
        .raised "AttributeError" :=
  have h := c10_nonobject_body_unexpected_failure 0 42 true "x" (by decide)
  ⟨h.1.2.2, h.2.2.2.2⟩

/-! ## Binder lemmas -/

lemma annotations_ne_optStr {cls : MType} {anns : List (String × MType)}
    (h : annotations cls = some anns) : cls ≠ .optStr := by
  intro hcl
  subst hcl
  simp [annotations] at h

/-- Unfolding of `model_from_json` on a mapping, for a target type that has
declared fields. -/
lemma model_from_json_obj {cls : MType} {anns : List (String × MType)}
    (fields : List (String × JValue)) (hann : annotations cls = some anns) :
    model_from_json cls (.jobj fields) =
      match bindItems anns fields [] with
      | .ok acc =>
          match fillDefaults anns acc with
          | .ok final => .ok (.vModel cls final)
          | .appError m => .appError m
          | .pyError m => .pyError m
      | .appError m => .appError m
      | .pyError m => .pyError m := by
  rw [model_from_json]
  rw [if_neg (annotations_ne_optStr hann)]
  rw [hann]

/-- The per-key loop processes a concatenation of items left to right. -/
lemma bindItems_append (anns : List (String × MType))
    (xs ys : List (String × JValue)) :
    ∀ acc, bindItems anns (xs ++ ys) acc =
      Res.bind (bindItems anns xs acc) (fun acc2 => bindItems anns ys acc2) := by
  induction xs with
  | nil => intro acc; simp [bindItems, Res.bind]
  | cons hd tl ih =>
      intro acc
      obtain ⟨key, value⟩ := hd
      rw [List.cons_append]
      cases hk : anns.lookup key with
      | none => simp [bindItems, hk, Res.bind]
      | some ty =>
          cases value with
          | jstr s => simp [bindItems, hk, ih]
          | jobj f =>
              cases hmm : model_from_json ty (.jobj f) with
              | ok v => simp [bindItems, hk, hmm, ih]
              | appError m => simp [bindItems, hk, hmm, Res.bind]
              | pyError m => simp [bindItems, hk, hmm, Res.bind]
          | jarr l => simp [bindItems, hk, Res.bind]
          | jnum n => simp [bindItems, hk, Res.bind]
          | jbool b => simp [bindItems, hk, Res.bind]
          | jnull => simp [bindItems, hk, Res.bind]

lemma lookup_setAttr_self (k : String) (v : MValue) :
    ∀ acc, (setAttr acc k v).lookup k = some v := by
  intro acc
  induction acc with
  | nil => simp [setAttr]
  | cons hd tl ih =>
      obtain ⟨k2, v2⟩ := hd
      by_cases h : k2 = k
      · subst h; simp [setAttr]
      · have hne : (k == k2) = false := beq_eq_false_iff_ne.mpr (Ne.symm h)
        simp [setAttr, h, ih, List.lookup_cons, hne]

lemma lookup_setAttr_ne (k : String) (v : MValue) (k2 : String) (h : k2 ≠ k) :
    ∀ acc, (setAttr acc k v).lookup k2 = acc.lookup k2 := by
  intro acc
  have hne : (k2 == k) = false := beq_eq_false_iff_ne.mpr h
  induction acc with
  | nil => simp [setAttr, List.lookup_cons, hne]
  | cons hd tl ih =>
      obtain ⟨k3, v3⟩ := hd
      by_cases h3 : k3 = k
      · subst h3
        simp [setAttr, List.lookup_cons, hne]
      · simp [setAttr, h3, List.lookup_cons, ih]

/-- Defaulting an unset key to `None` leaves every `hasNonNone` check
unchanged. -/
lemma hasNonNone_setAttr_vNone (acc : List (String × MValue)) (k0 : String)
    (h0 : hasNonNone acc k0 = false) (k : String) :
    hasNonNone (setAttr acc k0 .vNone) k = hasNonNone acc k := by
  by_cases hk : k = k0
  · subst hk
    rw [hasNonNone, lookup_setAttr_self, h0]
  · rw [hasNonNone, lookup_setAttr_ne k0 .vNone k hk, hasNonNone]

/-- The completeness loop raises the structured "missing required param"
error naming the first declared field that is neither set (to a non-`None`
value) nor optional. -/
lemma fillDefaults_missing_required :
    ∀ (anns : List (String × MType)) (acc : List (String × MValue))
      (k : String) (ty : MType),
    anns.find? (fun p => !hasNonNone acc p.1 && !isOptionalType p.2)
      = some (k, ty) →
    fillDefaults anns acc = .appError ("missing required param: " ++ k) := by
  intro anns
  induction anns with
  | nil => intro acc k ty h; simp at h
  | cons hd tl ih =>
      intro acc k ty h
      obtain ⟨k0, ty0⟩ := hd
      by_cases hcond : (!hasNonNone acc k0 && !isOptionalType ty0) = true
      · simp only [List.find?, hcond] at h
        have hpair := Option.some.inj h
        have hk : k0 = k := congrArg Prod.fst hpair
        subst hk
        simp only [Bool.and_eq_true, Bool.not_eq_true'] at hcond
        simp [fillDefaults, hcond.1, hcond.2]
      · have hcond2 : (!hasNonNone acc k0 && !isOptionalType ty0) = false := by
          simpa using hcond
        simp only [List.find?, hcond2] at h
        simp only [Bool.and_eq_true, Bool.not_eq_true', not_and_or,
          Bool.not_eq_false] at hcond
        by_cases hH : hasNonNone acc k0 = true
        · simp only [fillDefaults, hH, if_true]
          exact ih acc k ty h
        · have hH2 : hasNonNone acc k0 = false := by
            simpa using hH
          have hOpt : isOptionalType ty0 = true := by
            rcases hcond with hc | hc
            · exact absurd hc hH
            · exact hc
          simp only [fillDefaults, hH2, Bool.false_eq_true, if_false, hOpt,
            if_true]
          apply ih
          have hfun :
              (fun p : String × MType =>
                  !hasNonNone (setAttr acc k0 .vNone) p.1
                  && !isOptionalType p.2)
                = (fun p : String × MType =>
                  !hasNonNone acc p.1 && !isOptionalType p.2) := by
            funext p
            rw [hasNonNone_setAttr_vNone acc k0 hH2]
          rw [hfun]
          exact h

/-- When every declared field is either set or optional, the completeness
loop succeeds; set attributes are preserved and unset fields come out as
`None`. -/
lemma fillDefaults_complete :
    ∀ (anns : List (String × MType)) (acc : List (String × MValue)),
    (∀ p ∈ anns, hasNonNone acc p.1 = true ∨ isOptionalType p.2 = true) →
    ∃ final, fillDefaults anns acc = .ok final
      ∧ (∀ k v, acc.lookup k = some v → final.lookup k = some v)
      ∧ (∀ k ty, (k, ty) ∈ anns → hasNonNone acc k = false →
          final.lookup k = some .vNone) := by
  intro anns
  induction anns with
  | nil =>
      intro acc _
      exact ⟨acc, by simp [fillDefaults], fun k v h => h, by simp⟩
  | cons hd tl ih =>
      intro acc hcomp
      obtain ⟨k0, ty0⟩ := hd
      by_cases hH : hasNonNone acc k0 = true
      · obtain ⟨final, heq, hpres, hdef⟩ :=
          ih acc (fun p hp => hcomp p (by simp [hp]))
        refine ⟨final, by simp [fillDefaults, hH, heq], hpres, ?_⟩
        intro k ty hmem hfalse
        rcases List.mem_cons.mp hmem with hhd | htl
        · exfalso
          have : k = k0 := congrArg Prod.fst hhd
          subst this
          rw [hH] at hfalse
          exact Bool.true_eq_false.mp hfalse
        · exact hdef k ty htl hfalse
      · have hH2 : hasNonNone acc k0 = false := by simpa using hH
        have hOpt : isOptionalType ty0 = true := by
          rcases hcomp (k0, ty0) (by simp) with hc | hc
          · exact absurd hc hH
          · exact hc
        have hcomp2 : ∀ p ∈ tl,
            hasNonNone (setAttr acc k0 .vNone) p.1 = true
              ∨ isOptionalType p.2 = true := by
          intro p hp
          rw [hasNonNone_setAttr_vNone acc k0 hH2]
          exact hcomp p (by simp [hp])
        obtain ⟨final, heq, hpres, hdef⟩ := ih (setAttr acc k0 .vNone) hcomp2
        refine ⟨final,
          by simp [fillDefaults, hH2, hOpt, heq], ?_, ?_⟩
        · intro k v hkv
          by_cases hk : k = k0
          · subst hk
            have hv : v = .vNone := by
              rw [hasNonNone, hkv] at hH2
              cases v with
              | vNone => rfl
              | vStr s => simp at hH2
              | vModel c a => simp at hH2
            subst hv
            exact hpres _ .vNone (lookup_setAttr_self _ .vNone acc)
          · exact hpres k v (by rw [lookup_setAttr_ne k0 .vNone k hk]; exact hkv)
        · intro k ty hmem hfalse
          rcases List.mem_cons.mp hmem with hhd | htl
          · have : k = k0 := congrArg Prod.fst hhd
            subst this
            exact hpres k .vNone (lookup_setAttr_self k .vNone acc)
          · refine hdef k ty htl ?_
            rw [hasNonNone_setAttr_vNone acc k0 hH2]
            exact hfalse

/-- If the per-key loop completes without raising, every provided key was
declared on the target type. -/
lemma bindItems_ok_keys (anns : List (String × MType)) :
    ∀ (fields : List (String × JValue)) (acc acc2 : List (String × MValue)),
    bindItems anns fields acc = .ok acc2 →
    ∀ k v, (k, v) ∈ fields → (anns.lookup k).isSome := by
  intro fields
  induction fields with
  | nil => intro acc acc2 _ k v hmem; simp at hmem
  | cons hd tl ih =>
      intro acc acc2 hok k v hmem
      obtain ⟨k0, v0⟩ := hd
      cases hk : anns.lookup k0 with
      | none =>
          simp only [bindItems, hk] at hok
          exact Res.noConfusion hok
      | some ty =>
          rcases List.mem_cons.mp hmem with hhd | htl
          · have : k = k0 := congrArg Prod.fst hhd
            subst this
            simp [hk]
          · simp only [bindItems, hk] at hok
            cases v0 with
            | jstr s => exact ih _ _ hok k v htl
            | jobj f =>
                cases hmm : model_from_json ty (.jobj f) with
                | ok w =>
                    simp only [hmm] at hok
                    exact ih _ _ hok k v htl
                | appError m => simp only [hmm] at hok; simp at hok
                | pyError m => simp only [hmm] at hok; simp at hok
            | jarr l => simp at hok
            | jnum n => simp at hok
            | jbool b => simp at hok
            | jnull => simp at hok

/-- C7.  A JSON object containing a key that is not declared on the target
type never binds: if the keys provided before the unknown key all bind
successfully, binding fails with the structured 400 error naming the
unknown key; and whatever else the object contains, binding never
succeeds. -/
theorem c7_unknown_key_rejected (cls : MType) (anns : List (String × MType))
    (hann : annotations cls = some anns) :
    (∀ pre k v rest acc, anns.lookup k = none →
      bindItems anns pre [] = .ok acc →
      model_from_json cls (.jobj (pre ++ (k, v) :: rest)) =
        .appError ("unexpected param provided: " ++ k))
    ∧ (∀ fields k v m, (k, v) ∈ fields → anns.lookup k = none →
      model_from_json cls (.jobj fields) ≠ .ok m) := by
  constructor
  · intro pre k v rest acc hk hpre
    rw [model_from_json_obj _ hann, bindItems_append]
    simp only [hpre, Res.bind, bindItems, hk]
  · intro fields k v m hmem hk hok
    rw [model_from_json_obj _ hann] at hok
    cases hb : bindItems anns fields [] with
    | ok acc =>
        have := bindItems_ok_keys anns fields [] acc hb k v hmem
        rw [hk] at this
        simp at this
    | appError m2 => rw [hb] at hok; simp at hok
    | pyError m2 => rw [hb] at hok; simp at hok

/-- Witness for C7: binding `{"tz": "UTC", "bad": "y"}` against
`TimezoneModel` fails naming `bad`; binding `{"bad": "y"}` never
succeeds. -/
theorem c7_unknown_key_rejected_witness :
    model_from_json .timezoneModel
        (.jobj [("tz", .jstr "UTC"), ("bad", .jstr "y")]) =
      .appError "unexpected param provided: bad"
    ∧ model_from_json .timezoneModel (.jobj [("bad", .jstr "y")]) ≠
      .ok (.vModel .timezoneModel []) := by
  have h := c7_unknown_key_rejected .timezoneModel [("tz", .optStr)] rfl
  constructor
  · exact h.1 [("tz", .jstr "UTC")] "bad" (.jstr "y") [] [("tz", .vStr "UTC")]
      (by decide) (by simp [bindItems, setAttr])
  · exact h.2 [("bad", .jstr "y")] "bad" (.jstr "y") (.vModel .timezoneModel [])
      (by simp) (by decide)

/-- C8.  After the per-key loop has consumed all provided keys: if some
declared non-optional field is still unset, binding fails with the
structured 400 error naming the first such field; if every declared field
is set or optional, binding succeeds, every attribute that was supplied
with a value is kept (never overwritten by the default), and each unset
optional field is defaulted to `None`. -/
theorem c8_missing_required_and_optional_default (cls : MType)
    (anns : List (String × MType)) (fields : List (String × JValue))
    (acc : List (String × MValue)) (hann : annotations cls = some anns)
    (hbind : bindItems anns fields [] = .ok acc) :
    (∀ k ty,
      anns.find? (fun p => !hasNonNone acc p.1 && !isOptionalType p.2)
        = some (k, ty) →
      model_from_json cls (.jobj fields) =
        .appError ("missing required param: " ++ k))
    ∧ ((∀ p ∈ anns, hasNonNone acc p.1 = true ∨ isOptionalType p.2 = true) →
      ∃ final, model_from_json cls (.jobj fields) = .ok (.vModel cls final)
        ∧ (∀ k v, acc.lookup k = some v → final.lookup k = some v)
        ∧ (∀ k ty, (k, ty) ∈ anns → hasNonNone acc k = false →
            final.lookup k = some .vNone)) := by
  constructor
  · intro k ty hfind
    rw [model_from_json_obj _ hann]
    simp only [hbind, fillDefaults_missing_required anns acc k ty hfind]
  · intro hcomp
    obtain ⟨final, heq, hpres, hdef⟩ := fillDefaults_complete anns acc hcomp
    refine ⟨final, ?_, hpres, hdef⟩
    rw [model_from_json_obj _ hann]
    simp only [hbind, heq]

/-- Witness for C8: `DateModel` with an empty object fails naming `date`;
`TimezoneModel` keeps a supplied `tz`; `DateModel` with only `date`
defaults `tz` to `None`. -/
theorem c8_missing_required_and_optional_default_witness :
    model_from_json .dateModel (.jobj []) =
      .appError "missing required param: date"
    ∧ (∃ final, model_from_json .timezoneModel
          (.jobj [("tz", .jstr "UTC")]) = .ok (.vModel .timezoneModel final)
        ∧ final.lookup "tz" = some (.vStr "UTC"))
    ∧ (∃ final, model_from_json .dateModel (.jobj [("date", .jstr "x")]) =
          .ok (.vModel .dateModel final)
        ∧ final.lookup "date" = some (.vStr "x")
        ∧ final.lookup "tz" = some .vNone) := by
  refine ⟨?_, ?_, ?_⟩
  · exact (c8_missing_required_and_optional_default .dateModel
      [("date", .pyStr), ("tz", .optStr)] [] [] rfl (by simp [bindItems])).1
      "date" .pyStr (by decide)
  · obtain ⟨final, heq, hpres, _⟩ :=
      (c8_missing_required_and_optional_default .timezoneModel
        [("tz", .optStr)] [("tz", .jstr "UTC")] [("tz", .vStr "UTC")] rfl
        (by simp [bindItems, setAttr])).2 (by decide)
    exact ⟨final, heq, hpres "tz" (.vStr "UTC") (by simp)⟩
  · obtain ⟨final, heq, hpres, hdef⟩ :=
      (c8_missing_required_and_optional_default .dateModel
        [("date", .pyStr), ("tz", .optStr)] [("date", .jstr "x")]
        [("date", .vStr "x")] rfl (by simp [bindItems, setAttr])).2 (by decide)
    exact ⟨final, heq, hpres "date" (.vStr "x") (by simp),
      hdef "tz" .optStr (by simp) (by decide)⟩

/-- Counterexample to C3 as stated: a list as the top-level JSON value does
NOT produce the structured 400 error — `json.items()` is missing on a
list, so `model_from_json` raises an unstructured `AttributeError`
(`Res.pyError`, not `Res.appError`). -/
theorem c3_top_level_list_counterexample :
    model_from_json .timezoneModel (.jarr []) = .pyError "AttributeError" := by
  simp [model_from_json]

/-- C3 (amended).  A list in value position under a declared key — at any
nesting depth reached through model-typed fields — fails binding with the
structured 400 error `list in json is not supported: <key>` (and nested
structured errors propagate outward unchanged); but a list as the
top-level JSON value raises an unstructured `AttributeError` instead,
taking the unexpected-failure path. -/
theorem c3_list_rejected_amended (cls : MType) (anns : List (String × MType))
    (hann : annotations cls = some anns) :
    (∀ pre k ty l rest acc, anns.lookup k = some ty →
      bindItems anns pre [] = .ok acc →
      model_from_json cls (.jobj (pre ++ (k, .jarr l) :: rest)) =
        .appError ("list in json is not supported: " ++ k))
    ∧ (∀ pre k ty fields2 rest acc m, anns.lookup k = some ty →
      bindItems anns pre [] = .ok acc →
      model_from_json ty (.jobj fields2) = .appError m →
      model_from_json cls (.jobj (pre ++ (k, .jobj fields2) :: rest)) =
        .appError m)
    ∧ (∀ l, model_from_json cls (.jarr l) = .pyError "AttributeError") := by
  refine ⟨?_, ?_, ?_⟩
  · intro pre k ty l rest acc hk hpre
    rw [model_from_json_obj _ hann, bindItems_append]
    simp only [hpre, Res.bind, bindItems, hk]
  · intro pre k ty fields2 rest acc m hk hpre hinner
    rw [model_from_json_obj _ hann, bindItems_append]
    simp only [hpre, Res.bind, bindItems, hk, hinner]
  · intro l
    rw [model_from_json, if_neg (annotations_ne_optStr hann)]
    intro fields h
    exact JValue.noConfusion h

/-- Witness for C3 (amended): a list under `tz`, a list nested two levels
deep under `start.date`, and a top-level list. -/
theorem c3_list_rejected_amended_witness :
    model_from_json .timezoneModel (.jobj [("tz", .jarr [])]) =
      .appError "list in json is not supported: tz"
    ∧ model_from_json .datesDiffModel
        (.jobj [("start", .jobj [("date", .jarr [.jstr "x"])])]) =
      .appError "list in json is not supported: date"
    ∧ model_from_json .timezoneModel (.jarr [.jstr "x"]) =
      .pyError "AttributeError" := by
  have h1 := c3_list_rejected_amended .timezoneModel [("tz", .optStr)] rfl
  have h2 := c3_list_rejected_amended .dateModel
    [("date", .pyStr), ("tz", .optStr)] rfl
  have h3 := c3_list_rejected_amended .datesDiffModel
    [("start", .dateModel), ("end", .dateModel)] rfl
  refine ⟨?_, ?_, h1.2.2 [.jstr "x"]⟩
  · exact h1.1 [] "tz" .optStr [] [] [] (by decide) (by simp [bindItems])
  · exact h3.2.1 [] "start" .dateModel [("date", .jarr [.jstr "x"])] [] []
      "list in json is not supported: date" (by decide) (by simp [bindItems])
      (h2.1 [] "date" .pyStr [.jstr "x"] [] [] (by decide)
        (by simp [bindItems]))

/-- Counterexample to C4 as stated: an explicit JSON `null` for `tz` does
NOT bind like an absent `tz` — it is neither a string nor a mapping nor a
list, so the per-key loop raises the structured 400 error
`unexpected type of json param: tz`, and the request fails instead of
resolving to UTC. -/
theorem c4_null_tz_counterexample :
    model_from_json .timezoneModel (.jobj [("tz", .jnull)]) =
      .appError "unexpected type of json param: tz" := by
  simp [model_from_json, bindItems, fillDefaults, annotations, List.lookup]

/-- C4 (amended).  An absent `tz` binds to `None` and resolves to UTC
(offset 0), both directly on `TimezoneModel` and nested in a `DateModel`;
but an explicit JSON `null` `tz` is rejected with the structured 400 error
`unexpected type of json param: tz` — absent and null are NOT treated
identically. -/
theorem c4_absent_vs_null_tz_amended (d : String) :
    (model_from_json .timezoneModel (.jobj []) =
        .ok (.vModel .timezoneModel [("tz", .vNone)])
      ∧ get_parsed_tz none = .ok 0
      ∧ boundTz (.vModel .timezoneModel [("tz", .vNone)]) = none)
    ∧ model_from_json .dateModel (.jobj [("date", .jstr d)]) =
        .ok (.vModel .dateModel [("date", .vStr d), ("tz", .vNone)])
    ∧ model_from_json .timezoneModel (.jobj [("tz", .jnull)]) =
        .appError "unexpected type of json param: tz"
    ∧ model_from_json .dateModel (.jobj [("date", .jstr d), ("tz", .jnull)]) =
        .appError "unexpected type of json param: tz" := by
  refine ⟨⟨?_, rfl, rfl⟩, ?_, ?_, ?_⟩ <;>
    simp [model_from_json, bindItems, fillDefaults, setAttr, hasNonNone,
      isOptionalType, annotations, List.lookup]

/-! ## Evaluation lemmas for concrete bindings -/

lemma bindItems_nil (anns : List (String × MType))
    (acc : List (String × MValue)) : bindItems anns [] acc = .ok acc := by
  simp [bindItems]

lemma bindItems_cons_str (anns : List (String × MType)) (key : String)
    (ty : MType) (s : String) (rest : List (String × JValue))
    (acc : List (String × MValue)) (hk : anns.lookup key = some ty) :
    bindItems anns ((key, .jstr s) :: rest) acc =
      bindItems anns rest (setAttr acc key (.vStr s)) := by
  simp only [bindItems, hk]

lemma bindItems_cons_obj (anns : List (String × MType)) (key : String)
    (ty : MType) (f : List (String × JValue)) (rest : List (String × JValue))
    (acc : List (String × MValue)) (v : MValue)
    (hk : anns.lookup key = some ty)
    (hv : model_from_json ty (.jobj f) = .ok v) :
    bindItems anns ((key, .jobj f) :: rest) acc =
      bindItems anns rest (setAttr acc key v) := by
  simp only [bindItems, hk, hv]

/-- Binding a well-formed `DateModel` body: `date` is kept and `tz` is the
given string or, when omitted, defaulted to `None`. -/
lemma model_from_json_dateModel (d : String) (tz : Option String) :
    model_from_json .dateModel (dateJson d tz) =
      .ok (.vModel .dateModel
        [("date", .vStr d),
         ("tz", match tz with | some t => .vStr t | none => .vNone)]) := by
  cases tz with
  | some t =>
      show model_from_json .dateModel
          (.jobj [("date", .jstr d), ("tz", .jstr t)]) = _
      rw [model_from_json_obj _
        (rfl : annotations .dateModel
          = some [("date", MType.pyStr), ("tz", MType.optStr)])]
      rw [bindItems_cons_str _ "date" .pyStr d _ _ (by rfl)]
      rw [bindItems_cons_str _ "tz" .optStr t _ _ (by rfl)]
      rw [bindItems_nil]
      rfl
  | none =>
      show model_from_json .dateModel (.jobj [("date", .jstr d)]) = _
      rw [model_from_json_obj _
        (rfl : annotations .dateModel
          = some [("date", MType.pyStr), ("tz", MType.optStr)])]
      rw [bindItems_cons_str _ "date" .pyStr d _ _ (by rfl)]
      rw [bindItems_nil]
      rfl

/-- Binding a well-formed `DatesDiffModel` body from two bound
`DateModel`s. -/
lemma model_from_json_datesDiff (S E : List (String × JValue))
    (aS aE : List (String × MValue))
    (hS : model_from_json .dateModel (.jobj S) = .ok (.vModel .dateModel aS))
    (hE : model_from_json .dateModel (.jobj E) = .ok (.vModel .dateModel aE)) :
    model_from_json .datesDiffModel
        (.jobj [("start", .jobj S), ("end", .jobj E)]) =
      .ok (.vModel .datesDiffModel
        [("start", .vModel .dateModel aS), ("end", .vModel .dateModel aE)]) := by
  rw [model_from_json_obj _
    (rfl : annotations .datesDiffModel
      = some [("start", MType.dateModel), ("end", MType.dateModel)])]
  rw [bindItems_cons_obj _ "start" .dateModel S _ _ _ (by rfl) hS]
  rw [bindItems_cons_obj _ "end" .dateModel E _ _ _ (by rfl) hE]
  rw [bindItems_nil]
  rfl

/-- `get_diff` on a bound `DatesDiffModel` is the signed difference of the
two UTC instants. -/
lemma get_diff_eval (s e : MValue) (i1 i2 : Int)
    (hs : dateInUtcOf s = .ok i1) (he : dateInUtcOf e = .ok i2) :
    get_diff (.vModel .datesDiffModel [("start", s), ("end", e)]) =
      .ok (i1 - i2) := by
  have hu : get_diff (.vModel .datesDiffModel [("start", s), ("end", e)]) =
      Res.bind (dateInUtcOf s)
        (fun a => Res.bind (dateInUtcOf e) (fun b => Res.ok (a - b))) := rfl
  rw [hu, hs]
  simp only [Res.bind]
  rw [he]

/-- Route scan plus handler plumbing for a successful `datediff` request:
with the body bound to `m` and `get_diff m` returning `d` seconds, the
response is the JSON message `str(timedelta)` of `d`. -/
lemma datediff_ok_response (now : Int) (fields : List (String × JValue))
    (m : MValue) (d : Int)
    (hb : model_from_json .datesDiffModel (.jobj fields) = .ok m)
    (hd : get_diff m = .ok d) :
    handle_request (appRoutes now)
        ⟨"POST", "/api/v1/datediff", some (.jobj fields), none⟩ =
      .returned (Response.jsonMsg (pyTimedeltaStr d)) := by
  have hpipe : handle_request (appRoutes now)
      ⟨"POST", "/api/v1/datediff", some (.jobj fields), none⟩ =
      (match Res.bind (model_from_json .datesDiffModel (.jobj fields))
          (fun m2 => Res.bind (get_diff m2)
            (fun dres => Res.ok (Response.jsonMsg (pyTimedeltaStr dres)))) with
        | .ok r => .returned r
        | .appError m2 => .returned (Response.error m2 400)
        | .pyError m2 => .raised m2) := rfl
  rw [hpipe, hb]
  simp only [Res.bind]
  rw [hd]

/-- C2 (counterexample to the claim as stated).  The `datediff` body is
`str(start - end)`, not an absolute difference: with the repository's own
test vectors, swapping `start` and `end` turns `4:00:00` into
`-1 day, 20:00:00` — the two orders do not produce the same non-negative
string. -/
theorem c2_not_absolute_counterexample :
    handle_request (appRoutes 0) ⟨"POST", "/api/v1/datediff",
        some (.jobj
          [("start", .jobj [("date", .jstr "12:19am 2024-12-20"),
                            ("tz", .jstr "Asia/Novosibirsk")]),
           ("end", .jobj [("date", .jstr "12.20.2024 00:19:00"),
                          ("tz", .jstr "Europe/Moscow")])]), none⟩ =
      .returned (Response.jsonMsg "-1 day, 20:00:00")
    ∧ handle_request (appRoutes 0) ⟨"POST", "/api/v1/datediff",
        some (.jobj
          [("start", .jobj [("date", .jstr "12.20.2024 00:19:00"),
                            ("tz", .jstr "Europe/Moscow")]),
           ("end", .jobj [("date", .jstr "12:19am 2024-12-20"),
                          ("tz", .jstr "Asia/Novosibirsk")])]), none⟩ =
      .returned (Response.jsonMsg "4:00:00")
    ∧ ("-1 day, 20:00:00" : String) ≠ "4:00:00" := by
  have hS1 : model_from_json .dateModel
      (.jobj [("date", .jstr "12:19am 2024-12-20"),
              ("tz", .jstr "Asia/Novosibirsk")]) =
      .ok (.vModel .dateModel [("date", .vStr "12:19am 2024-12-20"),
        ("tz", .vStr "Asia/Novosibirsk")]) :=
    model_from_json_dateModel "12:19am 2024-12-20" (some "Asia/Novosibirsk")
  have hE1 : model_from_json .dateModel
      (.jobj [("date", .jstr "12.20.2024 00:19:00"),
              ("tz", .jstr "Europe/Moscow")]) =
      .ok (.vModel .dateModel [("date", .vStr "12.20.2024 00:19:00"),
        ("tz", .vStr "Europe/Moscow")]) :=
    model_from_json_dateModel "12.20.2024 00:19:00" (some "Europe/Moscow")
  refine ⟨?_, ?_, by decide⟩
  · exact datediff_ok_response 0 _ _ _
      (model_from_json_datesDiff _ _ _ _ hS1 hE1)
      (get_diff_eval
        (.vModel .dateModel [("date", .vStr "12:19am 2024-12-20"),
          ("tz", .vStr "Asia/Novosibirsk")])
        (.vModel .dateModel [("date", .vStr "12.20.2024 00:19:00"),
          ("tz", .vStr "Europe/Moscow")])
        1734628740 1734643140 rfl rfl)
  · exact datediff_ok_response 0 _ _ _
      (model_from_json_datesDiff _ _ _ _ hE1 hS1)
      (get_diff_eval
        (.vModel .dateModel [("date", .vStr "12.20.2024 00:19:00"),
          ("tz", .vStr "Europe/Moscow")])
        (.vModel .dateModel [("date", .vStr "12:19am 2024-12-20"),
          ("tz", .vStr "Asia/Novosibirsk")])
        1734643140 1734628740 rfl rfl)

/-- C2 (amended).  For every `datediff` request whose two `DateModel`s
bind and resolve to UTC instants `i1` (start) and `i2` (end), the success
body is `str(i1 - i2)` under Python's `timedelta` rendering — the SIGNED
difference, with no absolute value taken.  Only when `0 ≤ i1 - i2 < 24h`
is this the claimed plain `H:MM:SS` form; a negative difference carries a
negative day component instead. -/
theorem c2_signed_difference_amended (now : Int) (sd ed : String)
    (st et : Option String) (i1 i2 : Int)
    (h1 : get_date_in_utc sd st = .ok i1)
    (h2 : get_date_in_utc ed et = .ok i2) :
    handle_request (appRoutes now) ⟨"POST", "/api/v1/datediff",
        some (.jobj [("start", dateJson sd st), ("end", dateJson ed et)]),
        none⟩ =
      .returned (Response.jsonMsg (pyTimedeltaStr (i1 - i2)))
    ∧ (0 ≤ i1 - i2 → i1 - i2 < 86400 →
        pyTimedeltaStr (i1 - i2) =
          toString ((i1 - i2).toNat / 3600) ++ ":"
            ++ pad2 ((i1 - i2).toNat % 3600 / 60) ++ ":"
            ++ pad2 ((i1 - i2).toNat % 60)) := by
  constructor
  · cases st with
    | some t1 =>
        cases et with
        | some t2 =>
            have hS : model_from_json .dateModel
                (.jobj [("date", .jstr sd), ("tz", .jstr t1)]) =
                .ok (.vModel .dateModel
                  [("date", .vStr sd), ("tz", .vStr t1)]) :=
              model_from_json_dateModel sd (some t1)
            have hE : model_from_json .dateModel
                (.jobj [("date", .jstr ed), ("tz", .jstr t2)]) =
                .ok (.vModel .dateModel
                  [("date", .vStr ed), ("tz", .vStr t2)]) :=
              model_from_json_dateModel ed (some t2)
            exact datediff_ok_response now _ _ _
              (model_from_json_datesDiff _ _ _ _ hS hE)
              (get_diff_eval
                (.vModel .dateModel [("date", .vStr sd), ("tz", .vStr t1)])
                (.vModel .dateModel [("date", .vStr ed), ("tz", .vStr t2)])
                i1 i2 h1 h2)
        | none =>
            have hS : model_from_json .dateModel
                (.jobj [("date", .jstr sd), ("tz", .jstr t1)]) =
                .ok (.vModel .dateModel
                  [("date", .vStr sd), ("tz", .vStr t1)]) :=
              model_from_json_dateModel sd (some t1)
            have hE : model_from_json .dateModel
                (.jobj [("date", .jstr ed)]) =
                .ok (.vModel .dateModel
                  [("date", .vStr ed), ("tz", .vNone)]) :=
              model_from_json_dateModel ed none
            exact datediff_ok_response now _ _ _
              (model_from_json_datesDiff _ _ _ _ hS hE)
              (get_diff_eval
                (.vModel .dateModel [("date", .vStr sd), ("tz", .vStr t1)])
                (.vModel .dateModel [("date", .vStr ed), ("tz", .vNone)])
                i1 i2 h1 h2)
    | none =>
        cases et with
        | some t2 =>
            have hS : model_from_json .dateModel
                (.jobj [("date", .jstr sd)]) =
                .ok (.vModel .dateModel
                  [("date", .vStr sd), ("tz", .vNone)]) :=
              model_from_json_dateModel sd none
            have hE : model_from_json .dateModel
                (.jobj [("date", .jstr ed), ("tz", .jstr t2)]) =
                .ok (.vModel .dateModel
                  [("date", .vStr ed), ("tz", .vStr t2)]) :=
              model_from_json_dateModel ed (some t2)
            exact datediff_ok_response now _ _ _
              (model_from_json_datesDiff _ _ _ _ hS hE)
              (get_diff_eval
                (.vModel .dateModel [("date", .vStr sd), ("tz", .vNone)])
                (.vModel .dateModel [("date", .vStr ed), ("tz", .vStr t2)])
                i1 i2 h1 h2)
        | none =>
            have hS : model_from_json .dateModel
                (.jobj [("date", .jstr sd)]) =
                .ok (.vModel .dateModel
                  [("date", .vStr sd), ("tz", .vNone)]) :=
              model_from_json_dateModel sd none
            have hE : model_from_json .dateModel
                (.jobj [("date", .jstr ed)]) =
                .ok (.vModel .dateModel
                  [("date", .vStr ed), ("tz", .vNone)]) :=
              model_from_json_dateModel ed none
            exact datediff_ok_response now _ _ _
              (model_from_json_datesDiff _ _ _ _ hS hE)
              (get_diff_eval
                (.vModel .dateModel [("date", .vStr sd), ("tz", .vNone)])
                (.vModel .dateModel [("date", .vStr ed), ("tz", .vNone)])
                i1 i2 h1 h2)
  · intro hge hlt
    have hd : (i1 - i2) / 86400 = 0 := by omega
    have hm : (i1 - i2) % 86400 = i1 - i2 := by omega
    simp only [pyTimedeltaStr, hd, hm]
    simp

/-- Witness for C2 (amended) on the repository's own test vectors:
Moscow 2024-12-20 00:19 minus Novosibirsk 12:19am 2024-12-20 is
`4:00:00`. -/
theorem c2_signed_difference_amended_witness :
    handle_request (appRoutes 0) ⟨"POST", "/api/v1/datediff",
        some (.jobj
          [("start", dateJson "12.20.2024 00:19:00" (some "Europe/Moscow")),
           ("end", dateJson "12:19am 2024-12-20" (some "Asia/Novosibirsk"))]),
        none⟩ =
      .returned (Response.jsonMsg "4:00:00") := by
  have h := c2_signed_difference_amended 0 "12.20.2024 00:19:00"
    "12:19am 2024-12-20" (some "Europe/Moscow") (some "Asia/Novosibirsk")
    1734643140 1734628740 rfl rfl
  rw [h.1]
  rfl

/-! ## Body-parse degradation (C9) -/

lemma get_body_set_params (r : RequestM)
    (ps : Option (List (String × String))) :
    get_body { r with pathParams := ps } = get_body r := rfl

/-- The dispatcher's result depends on the request only through method,
path and what each handler does with the parameter-updated request. -/
lemma handleRequestAux_congr (routes : List RouteM) (q q2 : RequestM)
    (hm : q.method = q2.method) (hp : q.path = q2.path)
    (hh : ∀ r ∈ routes, ∀ ps,
      r.handler { q with pathParams := some ps } =
        r.handler { q2 with pathParams := some ps }) :
    ∀ n, handleRequestAux routes n q = handleRequestAux routes n q2 := by
  induction routes with
  | nil => intro n; rfl
  | cons r rs ih =>
      intro n
      simp only [handleRequestAux, hm, hp]
      by_cases hmethod : r.method = q2.method
      · simp only [hmethod, if_true]
        cases hmm : r.matcher q2.path with
        | some ps =>
            have := hh r (by simp) ps
            simp only [runMatched, this]
        | none => exact ih (fun x hx ps => hh x (by simp [hx]) ps) (n + 1)
      · simp only [hmethod, if_false]
        exact ih (fun x hx ps => hh x (by simp [hx]) ps) (n + 1)

/-- Every handler registered by `create_application` reads the request
only through its path parameters and `get_body`. -/
lemma appRoutes_handler_congr (now : Int) (q q2 : RequestM)
    (hb : get_body q = get_body q2) :
    ∀ r ∈ appRoutes now, ∀ ps,
      r.handler { q with pathParams := some ps } =
        r.handler { q2 with pathParams := some ps } := by
  intro r hr ps
  simp only [appRoutes, List.mem_cons, List.not_mem_nil, or_false] at hr
  rcases hr with rfl | rfl | rfl | rfl | rfl | rfl | rfl
  · rfl
  · rfl
  · rfl
  · rfl
  · show Res.bind (model_from_json .timezoneModel (get_body q))
        (fun m => Res.bind (get_str_datetime now (boundTz m))
          (fun s => Res.ok (Response.jsonMsg s))) =
      Res.bind (model_from_json .timezoneModel (get_body q2))
        (fun m => Res.bind (get_str_datetime now (boundTz m))
          (fun s => Res.ok (Response.jsonMsg s)))
    rw [hb]
  · show Res.bind (model_from_json .timezoneModel (get_body q))
        (fun m => Res.bind (get_datetime now (boundTz m))
          (fun w => Res.ok (Response.jsonMsg (formatDateOnly w)))) =
      Res.bind (model_from_json .timezoneModel (get_body q2))
        (fun m => Res.bind (get_datetime now (boundTz m))
          (fun w => Res.ok (Response.jsonMsg (formatDateOnly w))))
    rw [hb]
  · show Res.bind (model_from_json .datesDiffModel (get_body q))
        (fun m => Res.bind (get_diff m)
          (fun d => Res.ok (Response.jsonMsg (pyTimedeltaStr d)))) =
      Res.bind (model_from_json .datesDiffModel (get_body q2))
        (fun m => Res.bind (get_diff m)
          (fun d => Res.ok (Response.jsonMsg (pyTimedeltaStr d))))
    rw [hb]

/-- C9.  A request body that fails to parse as JSON (which also covers an
empty body, since `json.loads('')` raises) degrades to an empty mapping:
`get_body` yields `{}` (and a body parsing to the string `''` does too);
the whole application then answers exactly as for an explicit `{}` body;
and on `POST /api/v1/datediff` — required fields `start`/`end` — the
result is the binder's 400 `missing required param: start`, not a
separate bad-JSON error. -/
theorem c9_parse_failure_degrades_to_empty (now : Int) (m p : String)
    (pp : Option (List (String × String))) :
    get_body ⟨m, p, none, pp⟩ = .jobj []
    ∧ get_body ⟨m, p, some (.jstr ""), pp⟩ = .jobj []
    ∧ handle_request (appRoutes now) ⟨m, p, none, pp⟩ =
        handle_request (appRoutes now) ⟨m, p, some (.jobj []), pp⟩
    ∧ handle_request (appRoutes now) ⟨"POST", "/api/v1/datediff", none, pp⟩ =
        .returned (Response.error "missing required param: start" 400) := by
  refine ⟨rfl, rfl, ?_, ?_⟩
  · have hcong := handleRequestAux_congr (appRoutes now)
      ⟨m, p, none, pp⟩ ⟨m, p, some (.jobj []), pp⟩ rfl rfl
      (appRoutes_handler_congr now ⟨m, p, none, pp⟩
        ⟨m, p, some (.jobj []), pp⟩ rfl) 0
    exact congrArg Prod.snd hcong
  · have hmf : model_from_json .datesDiffModel (.jobj []) =
        .appError "missing required param: start" := by
      rw [model_from_json_obj _
        (rfl : annotations .datesDiffModel
          = some [("start", MType.dateModel), ("end", MType.dateModel)])]
      rw [bindItems_nil]
      rfl
    have hpipe : handle_request (appRoutes now)
        ⟨"POST", "/api/v1/datediff", none, pp⟩ =
        (match Res.bind (model_from_json .datesDiffModel (.jobj []))
            (fun m2 => Res.bind (get_diff m2)
              (fun d => Res.ok (Response.jsonMsg (pyTimedeltaStr d)))) with
          | .ok r => .returned r
          | .appError m2 => .returned (Response.error m2 400)
          | .pyError m2 => .raised m2) := rfl
    rw [hpipe, hmf]
    rfl

end TimeServer
